import Mathlib

/-!
Shallow embedding of `src/app.js` (a small Express backend generating
Tambula/bingo tickets), together with proofs of the specification claims.

Modelling conventions:
* JavaScript arrays are Lean `List`s; JS numbers appearing in the ticket
  generator are `Nat` (all values involved are small non-negative integers).
* `Math.random()` is an oracle.  Each call of
  `Math.floor(Math.random() * len)` yields an arbitrary index in `[0, len)`;
  we model the call at draw position `k` as `rand k % len` for an arbitrary
  oracle `rand : Nat → Nat` (every sequence of in-range indices is realised
  by some oracle, and every oracle realises an in-range sequence).
* The MongoDB stores are Lean lists threaded through the handlers; external
  library behaviours (bcrypt, jwt, express-validator's `isEmail`,
  `normalizeEmail`) are oracle parameters.
* HTTP responses are records of a status code and a JSON body, with one body
  type per endpoint.
-/

set_option maxRecDepth 100000

namespace Tambula

/-- A cell of the ticket grid: either a JS number pushed by `row.push(number)`
or the blank marker string `'x'` pushed by `row.push('x')`
(`src/app.js:208,210`). -/
inductive Cell : Type where
  | num (n : Nat) : Cell
  | x : Cell
deriving DecidableEq, Repr

/-- Whether a cell is numeric. -/
def Cell.isNum : Cell → Bool
  | Cell.num _ => true
  | Cell.x => false

/-- The numeric value of a numeric cell (`0` for the blank marker). -/
def Cell.val : Cell → Nat
  | Cell.num n => n
  | Cell.x => 0

/-- Push `v` onto column `c` of `cols`: `columns[column].push(i)`
(`src/app.js:198`). -/
def pushAt (cols : List (List Nat)) (c : Nat) (v : Nat) : List (List Nat) :=
  cols.set c (cols.getD c [] ++ [v])

/-- The nine column pools after the initialisation loop
`for (let i = 1; i <= 90; i++) columns[floor((i-1)/10)].push(i)`
(`src/app.js:194-199`).  `List.range 90` enumerates `k = 0..89`; the loop
variable is `i = k + 1`. -/
def initColumns : List (List Nat) :=
  (List.range 90).foldl
    (fun cols k => pushAt cols ((k + 1 - 1) / 10) (k + 1))
    (List.replicate 9 [])

/-- One iteration of the inner column loop of `generateTicket`
(`src/app.js:204-212`): if the pool of column `j` is non-empty, draw the
element at index `Math.floor(Math.random() * columns[j].length)` (modelled as
`rand (base + j) % length`), remove it with `splice`, and push it onto the
row; otherwise push the blank marker `'x'`.  The accumulator carries the row
built so far and the current column pools. -/
def rowStep (rand : Nat → Nat) (base : Nat)
    (acc : List Cell × List (List Nat)) (j : Nat) : List Cell × List (List Nat) :=
  let pool := acc.2.getD j []
  if 0 < pool.length then
    let idx := rand (base + j) % pool.length
    (acc.1 ++ [Cell.num (pool.getD idx 0)], acc.2.set j (pool.eraseIdx idx))
  else
    (acc.1 ++ [Cell.x], acc.2)

/-- The inner loop `for (let j = 0; j < 9; j++)` of `generateTicket`
(`src/app.js:203-212`), producing one row and the updated pools.  `base`
numbers the random draws of this row (`base + j` for column `j`). -/
def genRow (rand : Nat → Nat) (base : Nat) (cols : List (List Nat)) :
    List Cell × List (List Nat) :=
  (List.range 9).foldl (rowStep rand base) ([], cols)

/-- One iteration of the outer row loop of `generateTicket`
(`src/app.js:202-214`): generate row `i` and append it to `ticketData`.
Row `i` uses random draws `9*i + 0, …, 9*i + 8`. -/
def ticketStep (rand : Nat → Nat)
    (acc : List (List Cell) × List (List Nat)) (i : Nat) :
    List (List Cell) × List (List Nat) :=
  let p := genRow rand (9 * i) acc.2
  (acc.1 ++ [p.1], p.2)

/-- `generateTicket` (`src/app.js:192-217`): build the nine column pools,
then fill a 3×9 grid row by row, drawing a random remaining number from each
column's pool (or `'x'` if the pool is empty).  The oracle `rand` supplies
the 27 random draws. -/
def generateTicket (rand : Nat → Nat) : List (List Cell) :=
  ((List.range 3).foldl (ticketStep rand) ([], initColumns)).1

/-- The fixed number range of column `j` per the code's partition:
`floor((i-1)/10) = j` for `i ∈ [1,90]` means `10*j + 1 ≤ i ≤ 10*j + 10`. -/
def colRange (j : Nat) : List Nat :=
  (List.range 10).map (fun t => 10 * j + t + 1)

/-- The numeric values of a row, in order. -/
def rowVals (row : List Cell) : List Nat :=
  row.filterMap (fun c => match c with | Cell.num n => some n | Cell.x => none)

/-- All numeric values of a grid, in row-major order. -/
def ticketVals (g : List (List Cell)) : List Nat :=
  (g.map rowVals).flatten

/-- Number of numeric cells in a row. -/
def numCount (row : List Cell) : Nat :=
  (row.filter Cell.isNum).length

/-- Number of blank cells in a row. -/
def blankCount (row : List Cell) : Nat :=
  (row.filter (fun c => !c.isNum)).length

/-! ### General lemmas about the draw loop -/

/-- Removing the element at a valid index and putting it back in front is a
permutation of the original pool. -/
lemma cons_eraseIdx_perm : ∀ (l : List Nat) (idx : Nat), idx < l.length →
    List.Perm (l.getD idx 0 :: l.eraseIdx idx) l := by
  intro l
  induction l with
  | nil => intro idx h; simp at h
  | cons c t ih =>
    intro idx h
    cases idx with
    | zero => simp [List.eraseIdx]
    | succ m =>
      have hm : m < t.length := by simpa using h
      have heq : (c :: t).getD (m + 1) 0 :: (c :: t).eraseIdx (m + 1)
          = t.getD m 0 :: c :: t.eraseIdx m := by
        simp [List.eraseIdx, List.getD_cons_succ]
      rw [heq]
      exact (List.Perm.swap _ _ _).trans (List.Perm.cons c (ih m hm))

/-- The element drawn at a valid index belongs to the pool. -/
lemma getD_mem_of_lt (l : List Nat) (idx : Nat) (h : idx < l.length) :
    l.getD idx 0 ∈ l := by
  rw [List.getD_eq_getElem l 0 h]
  exact List.getElem_mem h

/-- `getD` after `set` at a different index is unchanged. -/
lemma getD_set_ne (l : List (List Nat)) (i j : Nat) (p : List Nat) (h : i ≠ j) :
    (l.set i p).getD j [] = l.getD j [] := by
  simp [List.getD_eq_getElem?_getD, List.getElem?_set_ne h]

/-- `getD` after `set` at the same (valid) index returns the new value. -/
lemma getD_set_self (l : List (List Nat)) (i : Nat) (p : List Nat) (h : i < l.length) :
    (l.set i p).getD i [] = p := by
  simp [List.getD_eq_getElem?_getD, List.getElem?_set_self h]

/-- Drawing element `idx` out of pool `a` (a `splice`) permutes the flattened
pool contents: the drawn value plus the new flattened pools is a permutation
of the old flattened pools. -/
lemma flatten_set_erase_perm : ∀ (cols : List (List Nat)) (a idx : Nat),
    a < cols.length → idx < (cols.getD a []).length →
    List.Perm
      ((cols.getD a []).getD idx 0 :: (cols.set a ((cols.getD a []).eraseIdx idx)).flatten)
      cols.flatten := by
  intro cols
  induction cols with
  | nil => intro a idx h; simp at h
  | cons c rest ih =>
    intro a idx ha hidx
    cases a with
    | zero =>
      simp only [List.getD_cons_zero] at hidx ⊢
      simp only [List.set_cons_zero, List.flatten_cons]
      have heq : c.getD idx 0 :: (c.eraseIdx idx ++ rest.flatten)
          = (c.getD idx 0 :: c.eraseIdx idx) ++ rest.flatten := rfl
      rw [heq]
      exact List.Perm.append_right rest.flatten (cons_eraseIdx_perm c idx hidx)
    | succ m =>
      have hm : m < rest.length := by simpa using ha
      simp only [List.getD_cons_succ] at hidx ⊢
      simp only [List.set_cons_succ, List.flatten_cons]
      have hrec := ih m idx hm hidx
      exact (List.perm_middle).symm.trans (List.Perm.append_left c hrec)

/-- Invariant of the inner column loop: folding `rowStep` over the column
indices `a, a+1, …, 8` (all pools at those indices non-empty) appends one
numeric cell per column, drawn from that column's pool; each such pool loses
exactly the drawn element and the other pools are untouched. -/
lemma rowStep_fold (rand : Nat → Nat) (base : Nat) :
    ∀ (k a : Nat) (cols : List (List Nat)) (acc : List Cell),
    a + k = 9 → cols.length = 9 →
    (∀ j, a ≤ j → j < 9 → 0 < (cols.getD j []).length) →
    ∃ newCells : List Cell,
      ((List.range' a k).foldl (rowStep rand base) (acc, cols)).1 = acc ++ newCells ∧
      newCells.length = k ∧
      (∀ m, m < k → ∃ v, newCells.getD m Cell.x = Cell.num v ∧ v ∈ cols.getD (a + m) []) ∧
      ((List.range' a k).foldl (rowStep rand base) (acc, cols)).2.length = 9 ∧
      (∀ j, j < a →
        ((List.range' a k).foldl (rowStep rand base) (acc, cols)).2.getD j []
          = cols.getD j []) ∧
      (∀ j, a ≤ j → j < 9 →
        (((List.range' a k).foldl (rowStep rand base) (acc, cols)).2.getD j []).Sublist
            (cols.getD j []) ∧
        (((List.range' a k).foldl (rowStep rand base) (acc, cols)).2.getD j []).length + 1
          = (cols.getD j []).length) ∧
      List.Perm
        (rowVals newCells
          ++ ((List.range' a k).foldl (rowStep rand base) (acc, cols)).2.flatten)
        cols.flatten := by
  intro k
  induction k with
  | zero =>
    intro a cols acc ha hlen hpos
    refine ⟨[], by simp, rfl, by intro m hm; omega, by simpa using hlen,
      fun j _ => rfl, fun j h1 h2 => absurd ha (by omega), by simp [rowVals]⟩
  | succ k ih =>
    intro a cols acc ha hlen hpos
    have ha9 : a < 9 := by omega
    have hpoolpos : 0 < (cols.getD a []).length := hpos a (Nat.le_refl a) ha9
    have hidx : rand (base + a) % (cols.getD a []).length < (cols.getD a []).length :=
      Nat.mod_lt _ hpoolpos
    -- one step of the loop at column `a`
    have hstep : rowStep rand base (acc, cols) a
        = (acc ++ [Cell.num ((cols.getD a []).getD (rand (base + a) % (cols.getD a []).length) 0)],
           cols.set a ((cols.getD a []).eraseIdx (rand (base + a) % (cols.getD a []).length))) := by
      simp only [rowStep, if_pos hpoolpos]
    rw [List.range'_succ, List.foldl_cons, hstep]
    set idx := rand (base + a) % (cols.getD a []).length with hidxdef
    set v := (cols.getD a []).getD idx 0 with hvdef
    set cols₁ := cols.set a ((cols.getD a []).eraseIdx idx) with hcols1
    have hlen₁ : cols₁.length = 9 := by simp [hcols1, List.length_set, hlen]
    have hne : ∀ j, a ≠ j → cols₁.getD j [] = cols.getD j [] := by
      intro j hj; rw [hcols1]; exact getD_set_ne cols a j _ hj
    have hata : cols₁.getD a [] = (cols.getD a []).eraseIdx idx := by
      rw [hcols1]; exact getD_set_self cols a _ (by omega)
    have hpos₁ : ∀ j, a + 1 ≤ j → j < 9 → 0 < (cols₁.getD j []).length := by
      intro j h1 h2
      rw [hne j (by omega)]
      exact hpos j (by omega) h2
    obtain ⟨rest, hfold, hrlen, hrmem, hlen', hlow, hhigh, hperm⟩ :=
      ih (a + 1) cols₁ (acc ++ [Cell.num v]) (by omega) hlen₁ hpos₁
    refine ⟨Cell.num v :: rest, ?_, by simp [hrlen], ?_, hlen', ?_, ?_, ?_⟩
    · rw [hfold]; simp
    · intro m hm
      cases m with
      | zero =>
        exact ⟨v, rfl, by rw [hvdef]; exact getD_mem_of_lt _ _ hidx⟩
      | succ m' =>
        obtain ⟨w, hw1, hw2⟩ := hrmem m' (by omega)
        refine ⟨w, by simpa using hw1, ?_⟩
        have : a + 1 + m' = a + (m' + 1) := by omega
        rw [this] at hw2
        rwa [hne (a + (m' + 1)) (by omega)] at hw2
    · intro j hj
      rw [hlow j (by omega), hne j (by omega)]
    · intro j h1 h2
      rcases Nat.eq_or_lt_of_le h1 with heq | hlt
      · rw [← heq]
        rw [hlow a (by omega), hata]
        constructor
        · exact List.eraseIdx_sublist _ _
        · rw [List.length_eraseIdx, if_pos hidx]
          omega
      · obtain ⟨hsub, hct⟩ := hhigh j (by omega) h2
        rw [hne j (by omega)] at hsub hct
        exact ⟨hsub, hct⟩
    · have hv : rowVals (Cell.num v :: rest) = v :: rowVals rest := by
        simp [rowVals]
      rw [hv]
      have hstep2 : List.Perm (v :: cols₁.flatten) cols.flatten := by
        rw [hvdef, hcols1]
        exact flatten_set_erase_perm cols a idx (by omega) hidx
      have : List.Perm
          (v :: (rowVals rest
            ++ ((List.range' (a+1) k).foldl (rowStep rand base)
                  (acc ++ [Cell.num v], cols₁)).2.flatten))
          (v :: cols₁.flatten) := List.Perm.cons v hperm
      exact this.trans hstep2

/-- Specification of one full row: with nine non-empty pools, `genRow`
produces nine numeric cells, one drawn from each column's pool; each pool
shrinks by exactly one element, and the drawn values together with the
remaining pool contents permute the original pool contents. -/
lemma genRow_spec (rand : Nat → Nat) (base : Nat) (cols : List (List Nat))
    (hlen : cols.length = 9)
    (hpos : ∀ j, j < 9 → 0 < (cols.getD j []).length) :
    (genRow rand base cols).1.length = 9 ∧
    (∀ m, m < 9 → ∃ v, (genRow rand base cols).1.getD m Cell.x = Cell.num v ∧
        v ∈ cols.getD m []) ∧
    (genRow rand base cols).2.length = 9 ∧
    (∀ j, j < 9 → ((genRow rand base cols).2.getD j []).Sublist (cols.getD j []) ∧
        ((genRow rand base cols).2.getD j []).length + 1 = (cols.getD j []).length) ∧
    List.Perm (rowVals (genRow rand base cols).1 ++ (genRow rand base cols).2.flatten)
      cols.flatten := by
  obtain ⟨newCells, h1, h2, h3, h4, h5, h6, h7⟩ :=
    rowStep_fold rand base 9 0 cols [] rfl hlen (fun j _ hj => hpos j hj)
  have hg : genRow rand base cols = (List.range' 0 9).foldl (rowStep rand base) ([], cols) := by
    rw [genRow, List.range_eq_range']
  rw [hg, h1]
  simp only [List.nil_append]
  refine ⟨h2, ?_, h4, fun j hj => h6 j (Nat.zero_le j) hj, h7⟩
  intro m hm
  have := h3 m hm
  simpa using this

/-- The nine initial pools have ten numbers each. -/
lemma initColumns_pools : ∀ j, j < 9 → (initColumns.getD j []).length = 10 := by decide

/-- The initial pool of column `j` is contained in that column's range. -/
lemma initColumns_range : ∀ j, j < 9 → ∀ v, v ∈ initColumns.getD j [] → v ∈ colRange j := by
  decide

/-- The initial pools are pairwise disjoint with no repetition: their
concatenation has no duplicate. -/
lemma initColumns_nodup : initColumns.flatten.Nodup := by decide

/-- There are nine initial pools. -/
lemma initColumns_length : initColumns.length = 9 := by decide

/-- Unfolding of the outer row loop: the grid consists of the three rows
generated in sequence, each from the pools left by the previous one. -/
lemma generateTicket_eq (rand : Nat → Nat) :
    generateTicket rand =
      [(genRow rand 0 initColumns).1,
       (genRow rand 9 (genRow rand 0 initColumns).2).1,
       (genRow rand 18 (genRow rand 9 (genRow rand 0 initColumns).2).2).1] := by
  have h3 : List.range 3 = [0, 1, 2] := rfl
  rw [generateTicket, h3]
  simp only [List.foldl_cons, List.foldl_nil, ticketStep]
  norm_num

/-- Full specification of `generateTicket`, for an arbitrary randomness
oracle: the grid is 3×9, every cell is a numeric cell whose value lies in its
column's range, and no value repeats across the grid. -/
lemma generateTicket_spec (rand : Nat → Nat) :
    (generateTicket rand).length = 3 ∧
    (∀ i, i < 3 → ((generateTicket rand).getD i []).length = 9) ∧
    (∀ i j, i < 3 → j < 9 →
      ∃ v, ((generateTicket rand).getD i []).getD j Cell.x = Cell.num v ∧ v ∈ colRange j) ∧
    (ticketVals (generateTicket rand)).Nodup := by
  obtain ⟨h0len, h0mem, h0clen, h0pool, h0perm⟩ :=
    genRow_spec rand 0 initColumns initColumns_length
      (fun j hj => by rw [initColumns_pools j hj]; omega)
  set r0 := genRow rand 0 initColumns with hr0
  obtain ⟨h1len, h1mem, h1clen, h1pool, h1perm⟩ :=
    genRow_spec rand 9 r0.2 h0clen
      (fun j hj => by have := (h0pool j hj).2; rw [initColumns_pools j hj] at this; omega)
  set r1 := genRow rand 9 r0.2 with hr1
  obtain ⟨h2len, h2mem, h2clen, h2pool, h2perm⟩ :=
    genRow_spec rand 18 r1.2 h1clen
      (fun j hj => by
        have ha := (h0pool j hj).2
        have hb := (h1pool j hj).2
        rw [initColumns_pools j hj] at ha
        omega)
  set r2 := genRow rand 18 r1.2 with hr2
  have hgrid : generateTicket rand = [r0.1, r1.1, r2.1] := generateTicket_eq rand
  refine ⟨by rw [hgrid]; rfl, ?_, ?_, ?_⟩
  · intro i hi
    have hi3 : i = 0 ∨ i = 1 ∨ i = 2 := by omega
    rcases hi3 with h | h | h <;> subst h <;> rw [hgrid]
    · simp only [List.getD_cons_zero]; exact h0len
    · simp only [List.getD_cons_succ, List.getD_cons_zero]; exact h1len
    · simp only [List.getD_cons_succ, List.getD_cons_zero]; exact h2len
  · intro i j hi hj
    have hi3 : i = 0 ∨ i = 1 ∨ i = 2 := by omega
    rcases hi3 with h | h | h <;> subst h <;> rw [hgrid]
    · obtain ⟨v, hv1, hv2⟩ := h0mem j hj
      exact ⟨v, by simpa using hv1, initColumns_range j hj v hv2⟩
    · obtain ⟨v, hv1, hv2⟩ := h1mem j hj
      have hsub0 : (r0.2.getD j []).Sublist (initColumns.getD j []) := (h0pool j hj).1
      exact ⟨v, by simpa using hv1, initColumns_range j hj v (hsub0.subset hv2)⟩
    · obtain ⟨v, hv1, hv2⟩ := h2mem j hj
      have hsub0 : (r0.2.getD j []).Sublist (initColumns.getD j []) := (h0pool j hj).1
      have hsub1 : (r1.2.getD j []).Sublist (r0.2.getD j []) := (h1pool j hj).1
      exact ⟨v, by simpa using hv1, initColumns_range j hj v (hsub0.subset (hsub1.subset hv2))⟩
  · have hX : List.Perm
        (rowVals r0.1 ++ (rowVals r1.1 ++ (rowVals r2.1 ++ r2.2.flatten)))
        initColumns.flatten := by
      have p2 : List.Perm (rowVals r1.1 ++ (rowVals r2.1 ++ r2.2.flatten))
          (rowVals r1.1 ++ r1.2.flatten) := List.Perm.append_left _ h2perm
      have p1 : List.Perm (rowVals r0.1 ++ (rowVals r1.1 ++ (rowVals r2.1 ++ r2.2.flatten)))
          (rowVals r0.1 ++ (rowVals r1.1 ++ r1.2.flatten)) :=
        List.Perm.append_left _ p2
      have p0 : List.Perm (rowVals r0.1 ++ (rowVals r1.1 ++ r1.2.flatten))
          (rowVals r0.1 ++ r0.2.flatten) := List.Perm.append_left _ h1perm
      exact (p1.trans p0).trans h0perm
    have hXnodup : (rowVals r0.1 ++ (rowVals r1.1 ++ (rowVals r2.1 ++ r2.2.flatten))).Nodup :=
      (hX.nodup_iff).mpr initColumns_nodup
    have hvals : ticketVals (generateTicket rand)
        = rowVals r0.1 ++ (rowVals r1.1 ++ (rowVals r2.1 ++ [])) := by
      rw [hgrid]; simp [ticketVals]
    rw [hvals]
    refine List.Nodup.sublist ?_ hXnodup
    refine List.Sublist.append_left ?_ _
    refine List.Sublist.append_left ?_ _
    exact List.Sublist.append_left (List.nil_sublist _) _

/-- Bounds characterisation of a column's range. -/
lemma mem_colRange (j v : Nat) : v ∈ colRange j ↔ 10 * j + 1 ≤ v ∧ v ≤ 10 * j + 10 := by
  simp only [colRange, List.mem_map, List.mem_range]
  constructor
  · rintro ⟨t, ht, rfl⟩; omega
  · intro h; exact ⟨v - (10 * j + 1), by omega, by omega⟩

/-- The column ranges exactly as the specification words them: column 0 →
`[1,9]`, column `c` for `1 ≤ c ≤ 7` → `[10c+1, 10c+10]`, column 8 →
`[81,90]`.  Used to compare the spec's claim with the code's behaviour. -/
def specColOK (j v : Nat) : Bool :=
  if j = 0 then decide (1 ≤ v) && decide (v ≤ 9)
  else if j ≤ 7 then decide (10 * j + 1 ≤ v) && decide (v ≤ 10 * j + 10)
  else decide (81 ≤ v) && decide (v ≤ 90)

/-! ### Claims C1–C5 -/

/-- C1 (counterexample): with the oracle that always picks index 0, row 0 of
the generated grid has 9 numeric cells and 0 blanks — not the claimed 5
numeric cells and 4 blanks. -/
theorem claim_C1_counterexample :
    numCount ((generateTicket (fun _ => 0)).getD 0 []) = 9 ∧
    blankCount ((generateTicket (fun _ => 0)).getD 0 []) = 0 ∧
    ¬(numCount ((generateTicket (fun _ => 0)).getD 0 []) = 5 ∧
      blankCount ((generateTicket (fun _ => 0)).getD 0 []) = 4) := by
  decide

/-- C1 (amended): for every grid returned by `generateTicket`, each of the 3
rows contains exactly 9 numeric cells and 0 blank cells. -/
theorem claim_C1_row_density (rand : Nat → Nat) (i : Nat) (hi : i < 3) :
    numCount ((generateTicket rand).getD i []) = 9 ∧
    blankCount ((generateTicket rand).getD i []) = 0 := by
  have hlen := (generateTicket_spec rand).2.1 i hi
  have hcells := (generateTicket_spec rand).2.2.1
  have hall : ∀ c ∈ (generateTicket rand).getD i [], c.isNum = true := by
    intro c hc
    rw [List.mem_iff_getElem] at hc
    obtain ⟨n, hn, hcn⟩ := hc
    have hn9 : n < 9 := by rw [hlen] at hn; exact hn
    obtain ⟨v, hv, _⟩ := hcells i n hi hn9
    rw [List.getD_eq_getElem _ _ hn] at hv
    rw [← hcn, hv]
    rfl
  constructor
  · rw [numCount, List.filter_eq_self.mpr hall, hlen]
  · rw [blankCount, List.filter_eq_nil_iff.mpr ?_]
    · rfl
    · intro c hc
      rw [hall c hc]
      simp

/-- C1 (witness for the amended theorem at a concrete oracle and row). -/
theorem claim_C1_row_density_witness :
    0 < 3 ∧
    (numCount ((generateTicket (fun _ => 3)).getD 0 []) = 9 ∧
     blankCount ((generateTicket (fun _ => 3)).getD 0 []) = 0) :=
  ⟨by decide, claim_C1_row_density (fun _ => 3) 0 (by decide)⟩

/-- C2 (counterexample): with the oracle that always picks index 9, the cell
in row 0, column 0 holds the value 10, which is outside the claimed range
`[1,9]` for column 0; moreover the column-0 pool holds 10 numbers, not the
claimed 9. -/
theorem claim_C2_counterexample :
    ((generateTicket (fun _ => 9)).getD 0 []).getD 0 Cell.x = Cell.num 10 ∧
    specColOK 0 10 = false ∧
    (initColumns.getD 0 []).length = 10 := by
  decide

/-- C2 (amended): every numeric cell in column `c` of a generated grid lies
in `[10c+1, 10c+10]` — so column 0 ranges over `[1,10]`, not `[1,9]` — and
every one of the nine column pools holds 10 numbers. -/
theorem claim_C2_column_ranges (rand : Nat → Nat) (i j : Nat) (hi : i < 3) (hj : j < 9) :
    (((generateTicket rand).getD i []).getD j Cell.x).isNum = true ∧
    10 * j + 1 ≤ (((generateTicket rand).getD i []).getD j Cell.x).val ∧
    (((generateTicket rand).getD i []).getD j Cell.x).val ≤ 10 * j + 10 ∧
    (initColumns.getD j []).length = 10 := by
  obtain ⟨v, hv, hvr⟩ := (generateTicket_spec rand).2.2.1 i j hi hj
  rw [hv, mem_colRange] at *
  exact ⟨by rw [hv]; rfl, by rw [hv]; exact hvr.1, by rw [hv]; exact hvr.2,
    initColumns_pools j hj⟩

/-- C2 (witness for the amended theorem at a concrete oracle and cell). -/
theorem claim_C2_column_ranges_witness :
    0 < 3 ∧ 8 < 9 ∧
    ((((generateTicket (fun _ => 7)).getD 0 []).getD 8 Cell.x).isNum = true ∧
     10 * 8 + 1 ≤ (((generateTicket (fun _ => 7)).getD 0 []).getD 8 Cell.x).val ∧
     (((generateTicket (fun _ => 7)).getD 0 []).getD 8 Cell.x).val ≤ 10 * 8 + 10 ∧
     (initColumns.getD 8 []).length = 10) :=
  ⟨by decide, by decide, claim_C2_column_ranges (fun _ => 7) 0 8 (by decide) (by decide)⟩

/-- C3: every one of the 27 cells of a generated grid is numeric (the blank
branch of the draw loop is unreachable), and each of the 9 column pools
starts with 10 numbers. -/
theorem claim_C3_no_blank_cells (rand : Nat → Nat) (i j : Nat) (hi : i < 3) (hj : j < 9) :
    (((generateTicket rand).getD i []).getD j Cell.x).isNum = true ∧
    (initColumns.getD j []).length = 10 := by
  obtain ⟨v, hv, _⟩ := (generateTicket_spec rand).2.2.1 i j hi hj
  rw [hv]
  exact ⟨rfl, initColumns_pools j hj⟩

/-- C3 (witness at a concrete oracle and cell). -/
theorem claim_C3_no_blank_cells_witness :
    2 < 3 ∧ 4 < 9 ∧
    ((((generateTicket (fun k => k)).getD 2 []).getD 4 Cell.x).isNum = true ∧
     (initColumns.getD 4 []).length = 10) :=
  ⟨by decide, by decide, claim_C3_no_blank_cells (fun k => k) 2 4 (by decide) (by decide)⟩

/-- C4: no numeric value appears in two different cells of a generated grid:
the list of all numeric values of the grid, in row-major order, has no
duplicate. -/
theorem claim_C4_values_distinct (rand : Nat → Nat) :
    (ticketVals (generateTicket rand)).Nodup :=
  (generateTicket_spec rand).2.2.2

/-- C5: every grid returned by `generateTicket` has exactly 3 rows, and each
of its rows has exactly 9 cells. -/
theorem claim_C5_grid_shape (rand : Nat → Nat) (i : Nat) (hi : i < 3) :
    (generateTicket rand).length = 3 ∧ ((generateTicket rand).getD i []).length = 9 :=
  ⟨(generateTicket_spec rand).1, (generateTicket_spec rand).2.1 i hi⟩

/-- C5 (witness at a concrete oracle and row). -/
theorem claim_C5_grid_shape_witness :
    1 < 3 ∧
    ((generateTicket (fun _ => 5)).length = 3 ∧
     ((generateTicket (fun _ => 5)).getD 1 []).length = 9) :=
  ⟨by decide, claim_C5_grid_shape (fun _ => 5) 1 (by decide)⟩

/-! ### Ticket-id generation (`generateUniqueTicketId`, `src/app.js:165-170`) -/

/-- Base-36 digit character as produced by JS `Number.prototype.toString(36)`:
`'0'`–`'9'` for digits below 10, then `'a'`–`'z'`. -/
def digitChar36 (d : Nat) : Char :=
  if d < 10 then Char.ofNat (48 + d) else Char.ofNat (87 + d)

/-- Base-36 digits of a natural number, most significant first, accumulated
onto `acc`. -/
def toBase36 (n : Nat) (acc : List Char) : List Char :=
  if n < 36 then digitChar36 n :: acc
  else toBase36 (n / 36) (digitChar36 (n % 36) :: acc)
termination_by n
decreasing_by exact Nat.div_lt_self (by omega) (by omega)

/-- `Date.now().toString(36)`: the base-36 representation of an integer
timestamp (`Date.now()` returns an integral number of milliseconds, for which
JS `toString(36)` yields the exact lowercase digit string, no sign). -/
def jsNatToString36 (n : Nat) : String :=
  String.mk (toBase36 n [])

/-- The string `Math.random().toString(36)`.  `Math.random()` returns a
double in `[0,1)`: for the value 0 JS yields `"0"`, and for any other value
`"0."` followed by a non-empty digit string.  The digit list `ds` is the
oracle for the random draw (together with the float-to-string conversion,
whose output digits we take as given): `ds = []` models drawing 0. -/
def jsRandomToString36 (ds : List Char) : String :=
  if ds.isEmpty then "0" else "0." ++ String.mk ds

/-- JS `String.prototype.substr(start, len)`: the substring of at most `len`
characters starting at index `start` (empty when `start` is past the end). -/
def jsSubstr (s : String) (start len : Nat) : String :=
  String.mk ((s.data.drop start).take len)

/-- `generateUniqueTicketId` (`src/app.js:165-170`): the base-36 timestamp
string concatenated with `Math.random().toString(36).substr(2, 5)`. -/
def generateUniqueTicketId (now : Nat) (ds : List Char) : String :=
  jsNatToString36 now ++ jsSubstr (jsRandomToString36 ds) 2 5

/-- C6 (counterexample): when `Math.random()` returns 0 — a value it can
take — its string is `"0"`, `substr(2, 5)` of it is empty, and the generated
id is just the timestamp part with zero random characters, not five
(concretely at timestamp 0 the id is `"0"`, of length 1, not 6). -/
theorem claim_C6_counterexample :
    generateUniqueTicketId 0 [] = "0" ∧
    (generateUniqueTicketId 0 []).length = 1 ∧
    ¬((generateUniqueTicketId 0 []).length = (jsNatToString36 0).length + 5) := by
  have h0 : toBase36 0 [] = ['0'] := by rw [toBase36]; decide
  refine ⟨?_, ?_, ?_⟩ <;>
    simp only [generateUniqueTicketId, jsNatToString36, h0, jsSubstr, jsRandomToString36] <;>
    decide

/-- C6 (amended): the generated id is the base-36 timestamp followed by the
first `min 5 d` fraction digits of the random value's base-36 string, where
`d` is how many fraction digits that string has — exactly 5 random
characters when the random string has at least 5 fraction digits, fewer
(possibly zero) otherwise. -/
theorem claim_C6_id_format (now : Nat) (ds : List Char) :
    generateUniqueTicketId now ds = jsNatToString36 now ++ String.mk (ds.take 5) ∧
    (generateUniqueTicketId now ds).length
      = (jsNatToString36 now).length + min 5 ds.length := by
  have hsub : jsSubstr (jsRandomToString36 ds) 2 5 = String.mk (ds.take 5) := by
    cases ds with
    | nil => rfl
    | cons c t =>
      show String.mk ((("0." ++ String.mk (c :: t)).data.drop 2).take 5) = _
      have hdata : ("0." ++ String.mk (c :: t)).data = '0' :: '.' :: c :: t := rfl
      rw [hdata]
      rfl
  constructor
  · rw [generateUniqueTicketId, hsub]
  · rw [generateUniqueTicketId, hsub, String.length_append]
    have : (String.mk (ds.take 5)).length = min 5 ds.length := by
      show (ds.take 5).length = min 5 ds.length
      exact List.length_take 5 ds
    rw [this]

/-! ### Users, login (`POST /login`, `src/app.js:78-101`) -/

/-- A stored user document per the User schema (`src/app.js:26-32`); the
`password` field holds the bcrypt hash stored at registration. -/
structure User where
  username : String
  password : String
  email : String
  name : String
deriving DecidableEq, Repr

/-- Body of a login response: `{message}` on failure, `{token}` on success. -/
inductive LoginBody where
  | message (s : String)
  | token (t : String)
deriving DecidableEq, Repr

/-- A login HTTP response: status code and JSON body. -/
structure LoginResp where
  status : Nat
  body : LoginBody
deriving DecidableEq, Repr

/-- `User.findOne({username})`: the first stored user with that username. -/
def findUser (users : List User) (u : String) : Option User :=
  users.find? (fun x => x.username == u)

/-- The `POST /login` handler (`src/app.js:78-101`): look the user up; 401
with a fixed message when absent; compare the password against the stored
hash with the `bcryptCompare` oracle; 401 with the same fixed message on
mismatch; otherwise 200 with a token signed by the `jwtSign` oracle over the
username. -/
def login (users : List User) (bcryptCompare : String → String → Bool)
    (jwtSign : String → String) (username password : String) : LoginResp :=
  match findUser users username with
  | none => ⟨401, LoginBody.message "Invalid username or password"⟩
  | some user =>
    if bcryptCompare password user.password then
      ⟨200, LoginBody.token (jwtSign user.username)⟩
    else
      ⟨401, LoginBody.message "Invalid username or password"⟩

/-- C7: an unknown username and a known username with a wrong password
produce identical responses — the same 401 status and the same message body
— so the two failure causes are indistinguishable to the caller. -/
theorem claim_C7_login_uniform (users : List User)
    (bcryptCompare : String → String → Bool) (jwtSign : String → String)
    (u1 p1 u2 p2 : String) (user : User)
    (h1 : findUser users u1 = none)
    (h2 : findUser users u2 = some user)
    (h3 : bcryptCompare p2 user.password = false) :
    login users bcryptCompare jwtSign u1 p1 = login users bcryptCompare jwtSign u2 p2 ∧
    (login users bcryptCompare jwtSign u1 p1).status = 401 ∧
    (login users bcryptCompare jwtSign u1 p1).body
      = LoginBody.message "Invalid username or password" := by
  simp [login, h1, h2, h3]

/-- C7 (witness): a one-user store, an unknown name `"bob"` and the known
name `"alice"` with a failing password comparison. -/
theorem claim_C7_login_uniform_witness :
    findUser [⟨"alice", "hash1", "a@x.com", "Alice"⟩] "bob" = none ∧
    findUser [⟨"alice", "hash1", "a@x.com", "Alice"⟩] "alice"
      = some ⟨"alice", "hash1", "a@x.com", "Alice"⟩ ∧
    (fun _ _ => false : String → String → Bool) "pw" "hash1" = false ∧
    (login [⟨"alice", "hash1", "a@x.com", "Alice"⟩] (fun _ _ => false) id "bob" "pw"
        = login [⟨"alice", "hash1", "a@x.com", "Alice"⟩] (fun _ _ => false) id "alice" "pw" ∧
      (login [⟨"alice", "hash1", "a@x.com", "Alice"⟩] (fun _ _ => false) id "bob" "pw").status
        = 401 ∧
      (login [⟨"alice", "hash1", "a@x.com", "Alice"⟩] (fun _ _ => false) id "bob" "pw").body
        = LoginBody.message "Invalid username or password") :=
  ⟨by decide, by decide, rfl,
    claim_C7_login_uniform [⟨"alice", "hash1", "a@x.com", "Alice"⟩]
      (fun _ _ => false) id "bob" "pw" "alice" "pw"
      ⟨"alice", "hash1", "a@x.com", "Alice"⟩ (by decide) (by decide) rfl⟩

/-! ### Registration (`POST /register`, `src/app.js:42-75`) -/

/-- The four request-body fields of `POST /register`. -/
structure RegisterInput where
  username : String
  password : String
  email : String
  name : String
deriving DecidableEq, Repr

/-- Body of a register response: the express-validator `{errors}` array
(modelled by the list of failing field names, in validator order), or a
`{message}`. -/
inductive RegisterBody where
  | errors (failed : List String)
  | message (s : String)
deriving DecidableEq, Repr

/-- A register HTTP response. -/
structure RegisterResp where
  status : Nat
  body : RegisterBody
deriving DecidableEq, Repr

/-- Whitespace characters stripped by the `trim()` sanitizer (the
`validator.js` default char set: space, tab, and line/page separators). -/
def jsWhitespace (c : Char) : Bool :=
  (c == ' ') || (c == '\t') || (c == '\n') || (c == '\r') ||
    (c == Char.ofNat 11) || (c == Char.ofNat 12)

/-- The `trim()` sanitizer: strip whitespace from both ends. -/
def jsTrim (s : String) : String :=
  String.mk (((s.data.dropWhile jsWhitespace).reverse.dropWhile jsWhitespace).reverse)

/-- The validator chain of `POST /register` (`src/app.js:44-49`): `username`
is trimmed then must be non-empty, `password` must have length ≥ 6, `email`
must satisfy the `isEmail` oracle (the external `validator.js` predicate),
`name` is trimmed then must be non-empty.  Returns the fields that fail. -/
def registerFailedFields (isEmail : String → Bool) (inp : RegisterInput) : List String :=
  (if jsTrim inp.username = "" then ["username"] else []) ++
  (if inp.password.length < 6 then ["password"] else []) ++
  (if isEmail inp.email then [] else ["email"]) ++
  (if jsTrim inp.name = "" then ["name"] else [])

/-- The `POST /register` handler (`src/app.js:42-75`).  The sanitizers
`trim()` and `normalizeEmail()` rewrite the body before the handler reads
it, so the conflict check and the created user use the trimmed username and
name and the normalized email; `bcryptHash` is the bcrypt oracle. -/
def register (isEmail : String → Bool) (normalizeEmail bcryptHash : String → String)
    (users : List User) (inp : RegisterInput) : RegisterResp × List User :=
  let failed := registerFailedFields isEmail inp
  if failed.isEmpty then
    let username := jsTrim inp.username
    let email := normalizeEmail inp.email
    match users.find? (fun u => u.username == username || u.email == email) with
    | some _ => (⟨400, RegisterBody.message "Username or email already exists"⟩, users)
    | none =>
      (⟨200, RegisterBody.message "User registered successfully"⟩,
        users ++ [⟨username, bcryptHash inp.password, email, jsTrim inp.name⟩])
  else (⟨400, RegisterBody.errors failed⟩, users)

/-- Whether a register response is the 400 validation-error response. -/
def isValidationResp : RegisterResp → Bool
  | ⟨400, RegisterBody.errors _⟩ => true
  | _ => false

/-- Whether a register response is the 400 conflict response. -/
def isConflictResp (r : RegisterResp) : Bool :=
  r = ⟨400, RegisterBody.message "Username or email already exists"⟩

/-- The validation trigger exactly as the claim words it: username empty,
password shorter than 6, email not a valid address, or name empty — with
no trimming. -/
def specC8ValidationTrigger (isEmail : String → Bool) (inp : RegisterInput) : Bool :=
  (inp.username == "") || decide (inp.password.length < 6)
    || !(isEmail inp.email) || (inp.name == "")

/-- C8 (counterexample): the input with username `" "` (a space), password
`"secret1"`, email `"a@x.com"`, name `"Alice"` triggers none of the claim's
validation conditions — the username is non-empty — yet the code trims the
username first and responds with the 400 validation error, creating no user
even though the store is empty and conflict-free.  The email validator
oracle is instantiated by a function agreeing with `validator.js` on the
input used (`"a@x.com"` is a valid address). -/
theorem claim_C8_counterexample :
    specC8ValidationTrigger (fun s => s == "a@x.com")
        ⟨" ", "secret1", "a@x.com", "Alice"⟩ = false ∧
    isValidationResp (register (fun s => s == "a@x.com") id id []
        ⟨" ", "secret1", "a@x.com", "Alice"⟩).1 = true ∧
    (register (fun s => s == "a@x.com") id id []
        ⟨" ", "secret1", "a@x.com", "Alice"⟩).2 = [] := by
  decide

/-- C8 (amended): `register` responds with the 400 validation error exactly
when the *trimmed* username is empty, the password is shorter than 6, the
email fails the validator, or the *trimmed* name is empty; for input passing
validation it responds with the 400 conflict error exactly when a stored
user has the same trimmed username or the same normalized email, in which
case (and in the validation-error case) the store is unchanged; otherwise it
responds 200 and appends exactly the new user. -/
theorem claim_C8_register (isEmail : String → Bool)
    (normalizeEmail bcryptHash : String → String)
    (users : List User) (inp : RegisterInput) :
    isValidationResp (register isEmail normalizeEmail bcryptHash users inp).1
      = ((jsTrim inp.username == "") || decide (inp.password.length < 6)
          || !(isEmail inp.email) || (jsTrim inp.name == "")) ∧
    isConflictResp (register isEmail normalizeEmail bcryptHash users inp).1
      = (!((jsTrim inp.username == "") || decide (inp.password.length < 6)
            || !(isEmail inp.email) || (jsTrim inp.name == ""))
         && users.any (fun u => u.username == jsTrim inp.username
              || u.email == normalizeEmail inp.email)) ∧
    (register isEmail normalizeEmail bcryptHash users inp).1.status
      = (if (!((jsTrim inp.username == "") || decide (inp.password.length < 6)
              || !(isEmail inp.email) || (jsTrim inp.name == ""))
            && !users.any (fun u => u.username == jsTrim inp.username
                || u.email == normalizeEmail inp.email)) = true
         then 200 else 400) ∧
    (register isEmail normalizeEmail bcryptHash users inp).2
      = (if (!((jsTrim inp.username == "") || decide (inp.password.length < 6)
              || !(isEmail inp.email) || (jsTrim inp.name == ""))
            && !users.any (fun u => u.username == jsTrim inp.username
                || u.email == normalizeEmail inp.email)) = true
         then users ++ [⟨jsTrim inp.username, bcryptHash inp.password,
                normalizeEmail inp.email, jsTrim inp.name⟩]
         else users) := by
  have htrig : (registerFailedFields isEmail inp).isEmpty
      = !((jsTrim inp.username == "") || decide (inp.password.length < 6)
          || !(isEmail inp.email) || (jsTrim inp.name == "")) := by
    by_cases h1 : jsTrim inp.username = "" <;> by_cases h2 : inp.password.length < 6 <;>
      by_cases h3 : isEmail inp.email <;> by_cases h4 : jsTrim inp.name = "" <;>
      simp [registerFailedFields, h1, h2, h3, h4]
  by_cases hv : (registerFailedFields isEmail inp).isEmpty
  · have htrigF : ((jsTrim inp.username == "") || decide (inp.password.length < 6)
        || !(isEmail inp.email) || (jsTrim inp.name == "")) = false := by
      rw [hv] at htrig
      cases hb : ((jsTrim inp.username == "") || decide (inp.password.length < 6)
        || !(isEmail inp.email) || (jsTrim inp.name == "")) <;> simp [hb] at htrig ⊢
    cases hfind : users.find? (fun u => u.username == jsTrim inp.username
        || u.email == normalizeEmail inp.email) with
    | none =>
      have hany : users.any (fun u => u.username == jsTrim inp.username
          || u.email == normalizeEmail inp.email) = false :=
        List.any_eq_false.mpr (List.find?_eq_none.mp hfind)
      simp [register, hv, hfind, htrigF, hany, isValidationResp, isConflictResp]
    | some u =>
      have hpu := @List.find?_some User
        (fun x => x.username == jsTrim inp.username || x.email == normalizeEmail inp.email)
        u users hfind
      have hany : users.any (fun u => u.username == jsTrim inp.username
          || u.email == normalizeEmail inp.email) = true :=
        List.any_eq_true.mpr ⟨u, List.mem_of_find?_eq_some hfind, hpu⟩
      simp [register, hv, hfind, htrigF, hany, isValidationResp, isConflictResp]
  · have htrigT : ((jsTrim inp.username == "") || decide (inp.password.length < 6)
        || !(isEmail inp.email) || (jsTrim inp.name == "")) = true := by
      rw [Bool.not_eq_true] at hv
      rw [hv] at htrig
      cases hb : ((jsTrim inp.username == "") || decide (inp.password.length < 6)
        || !(isEmail inp.email) || (jsTrim inp.name == "")) <;> simp [hb] at htrig ⊢
    rw [Bool.not_eq_true] at hv
    simp [register, hv, htrigT, isValidationResp, isConflictResp]

/-! ### Token middleware and ticket endpoints (`src/app.js:104-188`) -/

/-- A stored ticket document (`Ticket.create({ticketId, ticketData})`,
`src/app.js:35-39,152`). -/
structure TicketRec where
  ticketId : String
  ticketData : List (List Cell)
deriving DecidableEq, Repr

/-- Body of a ticket-endpoint response: a `{message}` or a JSON array of
ticket records. -/
inductive TicketsBody where
  | message (s : String)
  | arr (ts : List TicketRec)
deriving DecidableEq, Repr

/-- A ticket-endpoint HTTP response. -/
structure TicketsResp where
  status : Nat
  body : TicketsBody
deriving DecidableEq, Repr

/-- JS `String.prototype.split(sep)` for a one-character separator: split at
every occurrence, keeping empty parts (`"a  b".split(' ')` is
`["a","","b"]`, `"".split(' ')` is `[""]`). -/
def jsSplitChar (sep : Char) : List Char → List Char → List String
  | [], acc => [String.mk acc.reverse]
  | c :: cs, acc =>
    if c == sep then String.mk acc.reverse :: jsSplitChar sep cs []
    else jsSplitChar sep cs (c :: acc)

/-- Token extraction `req.headers.authorization?.split(' ')[1]` combined
with the JS truthiness test `if (!token)` (`src/app.js:105-108`): the result
is the second space-separated part of the header when the header is present
and that part exists and is non-empty (`undefined` and `""` are both falsy
and lead to the same 401). -/
def extractToken (auth : Option String) : Option String :=
  match auth with
  | none => none
  | some h =>
    match (jsSplitChar ' ' h.data []).get? 1 with
    | none => none
    | some t => if t = "" then none else some t

/-- The `verifyToken` middleware (`src/app.js:104-118`): 401 with
`'Access denied. No token provided'` when no (truthy) token is present, 401
with `'Invalid token'` when `jwt.verify` rejects it, otherwise the decoded
username is passed on.  `jwtVerify` is the oracle for
`jwt.verify(token, 'secret-key')`: `some username` on success, `none` on
error. -/
def verifyToken (jwtVerify : String → Option String) (auth : Option String) :
    Except TicketsResp String :=
  match extractToken auth with
  | none => Except.error ⟨401, TicketsBody.message "Access denied. No token provided"⟩
  | some t =>
    match jwtVerify t with
    | none => Except.error ⟨401, TicketsBody.message "Invalid token"⟩
    | some u => Except.ok u

/-- A JSON value as read from `req.body.numTickets`.  JS numbers are binary
doubles; the model restricts them to integral values, which are the only
numbers the claims concern (the loop bound behaviour for non-integral
numbers is out of scope). -/
inductive JsVal where
  | undefined
  | null
  | boolean (b : Bool)
  | num (n : Int)
  | str (s : String)
deriving DecidableEq, Repr

/-- Whether a JSON value is a number. -/
def JsVal.isNumber : JsVal → Bool
  | JsVal.num _ => true
  | _ => false

/-- Accumulate decimal digits into a number. -/
def digitsToNat (ds : List Char) : Nat :=
  ds.foldl (fun acc c => 10 * acc + (c.toNat - 48)) 0

/-- JS `StringToNumber`, restricted to optionally-signed decimal integer
literals: the empty or all-whitespace string is 0, a digit string (with
optional sign) is its value, anything else is NaN (`none`).  Fractional,
exponent, hex and `Infinity` literals are omitted — no claim involves
them. -/
def jsStringToNumber (s : String) : Option Int :=
  match (jsTrim s).data with
  | [] => some 0
  | '-' :: ds =>
    if !ds.isEmpty && ds.all Char.isDigit then some (-(digitsToNat ds : Int)) else none
  | '+' :: ds =>
    if !ds.isEmpty && ds.all Char.isDigit then some ((digitsToNat ds : Int)) else none
  | ds =>
    if ds.all Char.isDigit then some ((digitsToNat ds : Int)) else none

/-- JS `ToNumber` on the model's values (`none` is NaN): `undefined` → NaN,
`null` → 0, booleans → 0/1, numbers unchanged, strings via
`StringToNumber`. -/
def jsToNumber : JsVal → Option Int
  | JsVal.undefined => none
  | JsVal.null => some 0
  | JsVal.boolean b => some (if b then 1 else 0)
  | JsVal.num n => some n
  | JsVal.str s => jsStringToNumber s

/-- The loop guard `i < numTickets` (`src/app.js:147`): an abstract
relational comparison, numeric since `i` is a number — false when
`numTickets` coerces to NaN. -/
def jsLtNum (i : Nat) (v : JsVal) : Bool :=
  match jsToNumber v with
  | none => false
  | some n => decide ((i : Int) < n)

/-- How many iterations the ticket loop runs: the coerced bound clamped to
naturals (0 when NaN or non-positive). -/
def ticketLimit (v : JsVal) : Nat :=
  match jsToNumber v with
  | none => 0
  | some n => n.toNat

/-- One generated ticket record for loop iteration `i`
(`src/app.js:148-154`): `generateTicket()` then `generateUniqueTicketId()`,
with per-iteration oracles — `rands i` for the 27 grid draws, `now i` for
the clock, `rds i` for the random fraction digits of the id. -/
def mkTicket (now : Nat → Nat) (rands : Nat → Nat → Nat) (rds : Nat → List Char)
    (i : Nat) : TicketRec :=
  ⟨generateUniqueTicketId (now i) (rds i), generateTicket (rands i)⟩

/-- The loop `for (let i = 0; i < numTickets; i++)` of `POST /tickets`
(`src/app.js:146-155`), returning the pushed `{ticketId, ticketData}`
records in order (the store gains the same records, via `Ticket.create`). -/
def ticketsLoop (gen : Nat → TicketRec) (v : JsVal) (i : Nat) : List TicketRec :=
  if jsLtNum i v then gen i :: ticketsLoop gen v (i + 1) else []
termination_by ticketLimit v - i
decreasing_by
  rename_i h
  rw [jsLtNum] at h
  rcases hv : jsToNumber v with _ | n
  · rw [hv] at h; simp at h
  · rw [hv] at h
    simp only [decide_eq_true_eq] at h
    simp only [ticketLimit, hv]
    omega

/-- The `POST /tickets` handler (`src/app.js:141-162`) behind `verifyToken`:
on auth failure the middleware's 401 response is returned and the store is
untouched; otherwise the loop generates and persists the tickets and the
response is 200 with the JSON array of created records. -/
def postTickets (jwtVerify : String → Option String) (auth : Option String)
    (numTickets : JsVal) (now : Nat → Nat) (rands : Nat → Nat → Nat)
    (rds : Nat → List Char) (store : List TicketRec) :
    TicketsResp × List TicketRec :=
  match verifyToken jwtVerify auth with
  | Except.error resp => (resp, store)
  | Except.ok _ =>
    let tickets := ticketsLoop (mkTicket now rands rds) numTickets 0
    (⟨200, TicketsBody.arr tickets⟩, store ++ tickets)

/-- The `GET /tickets/:id` handler (`src/app.js:174-188`) behind
`verifyToken`: find the tickets whose `ticketId` matches, with
skip/limit pagination (`skip` and `limit` model the computed
`(page-1)*limit` and `limit` counts); the store is never modified. -/
def getTicketsById (jwtVerify : String → Option String) (auth : Option String)
    (id : String) (skip limit : Nat) (store : List TicketRec) :
    TicketsResp × List TicketRec :=
  match verifyToken jwtVerify auth with
  | Except.error resp => (resp, store)
  | Except.ok _ =>
    (⟨200, TicketsBody.arr (((store.filter (fun t => t.ticketId == id)).drop skip).take limit)⟩,
      store)

/-- The loop guard holds exactly below the loop's limit. -/
lemma jsLtNum_iff (i : Nat) (v : JsVal) : jsLtNum i v = true ↔ i < ticketLimit v := by
  rw [jsLtNum, ticketLimit]
  cases jsToNumber v with
  | none => simp
  | some n => simp only [decide_eq_true_eq]; omega

/-- The ticket loop starting at counter `i` produces one record per
remaining iteration, in order. -/
lemma ticketsLoop_spec (gen : Nat → TicketRec) (v : JsVal) :
    ∀ n i, ticketLimit v - i = n → ticketsLoop gen v i = (List.range' i n).map gen := by
  intro n
  induction n with
  | zero =>
    intro i h
    rw [ticketsLoop]
    have hf : jsLtNum i v = false := by
      cases hb : jsLtNum i v
      · rfl
      · have := (jsLtNum_iff i v).mp hb; omega
    rw [hf]
    simp
  | succ m ih =>
    intro i h
    have ht : jsLtNum i v = true := (jsLtNum_iff i v).mpr (by omega)
    rw [ticketsLoop, ht]
    rw [ih (i + 1) (by omega), List.range'_succ]
    simp

/-- C9: when the Authorization header is absent or carries a token the
verifier rejects (`Option.bind (extractToken auth) jwtVerify = none` states
exactly that no valid token is presented), both `POST /tickets` and
`GET /tickets/:id` respond with status 401 and the ticket store is
unchanged. -/
theorem claim_C9_auth_gate (jwtVerify : String → Option String) (auth : Option String)
    (numTickets : JsVal) (now : Nat → Nat) (rands : Nat → Nat → Nat) (rds : Nat → List Char)
    (id : String) (skip limit : Nat) (store : List TicketRec)
    (h : Option.bind (extractToken auth) jwtVerify = none) :
    (postTickets jwtVerify auth numTickets now rands rds store).1.status = 401 ∧
    (postTickets jwtVerify auth numTickets now rands rds store).2 = store ∧
    (getTicketsById jwtVerify auth id skip limit store).1.status = 401 ∧
    (getTicketsById jwtVerify auth id skip limit store).2 = store := by
  cases he : extractToken auth with
  | none => simp [postTickets, getTicketsById, verifyToken, he]
  | some t =>
    rw [he] at h
    simp only [Option.some_bind] at h
    simp [postTickets, getTicketsById, verifyToken, he, h]

/-- C9 (witness): a header whose bearer token the verifier rejects. -/
theorem claim_C9_auth_gate_witness :
    Option.bind (extractToken (some "Bearer bogus")) (fun _ => (none : Option String)) = none ∧
    ((postTickets (fun _ => none) (some "Bearer bogus") (JsVal.num 2) (fun _ => 0)
        (fun _ _ => 0) (fun _ => []) []).1.status = 401 ∧
     (postTickets (fun _ => none) (some "Bearer bogus") (JsVal.num 2) (fun _ => 0)
        (fun _ _ => 0) (fun _ => []) []).2 = [] ∧
     (getTicketsById (fun _ => none) (some "Bearer bogus") "id1" 0 10 []).1.status = 401 ∧
     (getTicketsById (fun _ => none) (some "Bearer bogus") "id1" 0 10 []).2 = []) :=
  ⟨by decide,
    claim_C9_auth_gate (fun _ => none) (some "Bearer bogus") (JsVal.num 2) (fun _ => 0)
      (fun _ _ => 0) (fun _ => []) "id1" 0 10 [] (by decide)⟩

/-- C10 (counterexample): an authenticated request with `numTickets = "3"` —
a string, hence not a number — creates 3 tickets and returns a non-empty
array: the loop's `<` comparison coerces the numeric string, so the claim's
"not a number → empty array, no ticket created" fails. -/
theorem claim_C10_counterexample :
    JsVal.isNumber (JsVal.str "3") = false ∧
    (postTickets (fun _ => some "alice") (some "Bearer tok") (JsVal.str "3")
        (fun _ => 0) (fun _ _ => 0) (fun _ => []) []).2.length = 3 ∧
    ¬((postTickets (fun _ => some "alice") (some "Bearer tok") (JsVal.str "3")
        (fun _ => 0) (fun _ _ => 0) (fun _ => []) []).1.body = TicketsBody.arr []) := by
  have hlim : ticketLimit (JsVal.str "3") = 3 := by decide
  have hloop := ticketsLoop_spec (mkTicket (fun _ => 0) (fun _ _ => 0) (fun _ => []))
      (JsVal.str "3") (ticketLimit (JsVal.str "3")) 0 (by omega)
  rw [hlim] at hloop
  have hver : verifyToken (fun _ => some "alice") (some "Bearer tok")
      = Except.ok "alice" := rfl
  have hpost : postTickets (fun _ => some "alice") (some "Bearer tok") (JsVal.str "3")
      (fun _ => 0) (fun _ _ => 0) (fun _ => []) []
      = (⟨200, TicketsBody.arr ((List.range' 0 3).map
            (mkTicket (fun _ => 0) (fun _ _ => 0) (fun _ => [])))⟩,
         [] ++ (List.range' 0 3).map (mkTicket (fun _ => 0) (fun _ _ => 0) (fun _ => []))) := by
    rw [postTickets, hver, hloop]
  rw [hpost]
  refine ⟨by decide, ?_, ?_⟩
  · simp
  · simp

/-- C10 (amended): for an authenticated request, `POST /tickets` responds
200 with the array of created `{ticketId, ticketData}` records and appends
exactly those records to the store; the number of records is the JS numeric
coercion of `numTickets` clamped to the naturals (`ticketLimit`) — 0 for a
missing, null, zero, negative or NaN-coercing value (so no ticket is
created), `n` for a non-negative integer `n`, but also `n` for a numeric
string coercing to `n`. -/
theorem claim_C10_num_tickets (jwtVerify : String → Option String) (auth : Option String)
    (v : JsVal) (now : Nat → Nat) (rands : Nat → Nat → Nat) (rds : Nat → List Char)
    (store : List TicketRec) (u : String)
    (h : Option.bind (extractToken auth) jwtVerify = some u) :
    (postTickets jwtVerify auth v now rands rds store).1
      = ⟨200, TicketsBody.arr ((List.range (ticketLimit v)).map (mkTicket now rands rds))⟩ ∧
    (postTickets jwtVerify auth v now rands rds store).2
      = store ++ (List.range (ticketLimit v)).map (mkTicket now rands rds) ∧
    ((List.range (ticketLimit v)).map (mkTicket now rands rds)).length = ticketLimit v := by
  cases he : extractToken auth with
  | none => rw [he] at h; simp at h
  | some t =>
    rw [he] at h
    simp only [Option.some_bind] at h
    have hloop := ticketsLoop_spec (mkTicket now rands rds) v (ticketLimit v) 0 (by omega)
    rw [← List.range_eq_range'] at hloop
    simp [postTickets, verifyToken, he, h, hloop]

/-- C10 (witness for the amended theorem: a valid token and
`numTickets = 2`). -/
theorem claim_C10_num_tickets_witness :
    Option.bind (extractToken (some "Bearer tok")) (fun _ => some "alice") = some "alice" ∧
    ((postTickets (fun _ => some "alice") (some "Bearer tok") (JsVal.num 2) (fun _ => 0)
        (fun _ _ => 0) (fun _ => []) []).1
      = ⟨200, TicketsBody.arr ((List.range (ticketLimit (JsVal.num 2))).map
          (mkTicket (fun _ => 0) (fun _ _ => 0) (fun _ => [])))⟩ ∧
     (postTickets (fun _ => some "alice") (some "Bearer tok") (JsVal.num 2) (fun _ => 0)
        (fun _ _ => 0) (fun _ => []) []).2
      = [] ++ (List.range (ticketLimit (JsVal.num 2))).map
          (mkTicket (fun _ => 0) (fun _ _ => 0) (fun _ => [])) ∧
     ((List.range (ticketLimit (JsVal.num 2))).map
          (mkTicket (fun _ => 0) (fun _ _ => 0) (fun _ => []))).length
      = ticketLimit (JsVal.num 2)) :=
  ⟨by decide,
    claim_C10_num_tickets (fun _ => some "alice") (some "Bearer tok") (JsVal.num 2)
      (fun _ => 0) (fun _ _ => 0) (fun _ => []) [] "alice" (by decide)⟩

end Tambula
